import Mathlib

/-!
A shallow embedding of `ida_settings/ida_settings.py` (the ida-settings
module): a layered key-value configuration store with four scopes
(system, user, directory, document/IDB) behind Qt `QSettings` and IDA
netnode backends, plus a facade (`IDASettings`) whose `get_value`
resolves a key by probing the scopes in priority order.

The external collaborators are modelled explicitly:

* the two `QSettings` registry scopes as association lists keyed by
  `(group, key)` (the group is the plugin name passed to `beginGroup`);
  a `QSettings` opened in `UserScope` falls back to the `SystemScope`
  storage on reads, behavior the module's own `test_system_fallback`
  asserts and the comment in `UserIDASettings.get_value` records;
* the per-directory `.ida-settings.ini` file as a third association
  list (the `IniFormat` backend performs no cross-scope fallback);
* the IDB's netnodes as a name-indexed table of insertion-ordered hash
  entries (`hashval` / `hashset` / `hashdel`; `hash1st` / `hashnxt`
  enumerate the entry keys in insertion order).

Python-level facts of the module that the embedding reproduces
faithfully: the module never defines `get_current_plugin_names`
(called as the first statement of `add_netnode_plugin_name`), never
imports `json` (used by `get_netnode_plugin_names`), and the
KeyError branch of `DictMixin.get` returns the undefined name
`Default`; each of those statements raises `NameError` when executed.
Keys in this model are always strings, so the `isinstance(key,
basestring)` guards always pass; a Python value passed to `set_value`
is `Option Bytes`, with `none` standing for Python `None`.
-/

/-- Python exception classes reachable in the embedded fragment. -/
inductive PyErr where
  | keyError
  | typeError
  | nameError
  | runtimeError
  deriving DecidableEq, Repr

/-- Values are opaque byte sequences (Python `bytes`). -/
abbrev Bytes := List Nat

/-- A `QSettings` storage: entries keyed by `(group, key)`; the stored
payload is `Option Bytes`, with `none` standing for an explicitly stored
Python `None`/null variant. -/
abbrev QStore := List ((String × String) × Option Bytes)

/-- One netnode's hash: entries in insertion order, values possibly null. -/
abbrev HashEntries := List (String × Option Bytes)

/-- The persistent state all four backends live in: the system-scope and
user-scope `QSettings` storages, the directory `.ida-settings.ini` file,
and the current IDB's netnodes (name-indexed). -/
structure World where
  sysQ : QStore
  userQ : QStore
  dirQ : QStore
  nodes : List (String × HashEntries)
  deriving DecidableEq, Repr

/-- First-match association-list lookup. -/
def alookup {α β : Type} [DecidableEq α] : List (α × β) → α → Option β
  | [], _ => none
  | p :: rest, k => if p.1 = k then some p.2 else alookup rest k

/-- Upsert: replace the binding in place when the key exists, else append
(so fresh keys keep insertion order). -/
def aupsert {α β : Type} [DecidableEq α] : List (α × β) → α → β → List (α × β)
  | [], k, v => [(k, v)]
  | p :: rest, k, v => if p.1 = k then (k, v) :: rest else p :: aupsert rest k v

/-- Remove every binding for the key. -/
def aremove {α β : Type} [DecidableEq α] : List (α × β) → α → List (α × β)
  | [], _ => []
  | p :: rest, k => if p.1 = k then aremove rest k else p :: aremove rest k

/-- `QSettings.value` against the SystemScope storage: `None` when the
`(group, key)` is absent, otherwise the stored variant (possibly null). -/
def qsysValue (w : World) (group key : String) : Option Bytes :=
  match alookup w.sysQ (group, key) with
  | some ov => ov
  | none => none

/-- `QSettings.value` against a UserScope handle: Qt falls back to the
SystemScope storage when the `(group, key)` has no user-scope entry —
the behavior asserted by the module's `test_system_fallback` and noted
by the comment in `UserIDASettings.get_value` (src line 207). -/
def quserValue (w : World) (group key : String) : Option Bytes :=
  match alookup w.userQ (group, key) with
  | some ov => ov
  | none => qsysValue w group key

/-- `QSettings.value` against the directory `IniFormat` file: no fallback. -/
def qdirValue (w : World) (group key : String) : Option Bytes :=
  match alookup w.dirQ (group, key) with
  | some ov => ov
  | none => none

/-- `QSettings.allKeys` restricted to one group, in storage order. -/
def qallKeys (st : QStore) (group : String) : List String :=
  (st.filter (fun p => p.1.1 == group)).map (fun p => p.1.2)

/-- Embeds `SystemIDASettings.get_value` (src 184-188): read the value;
`None` (absent or stored null) raises `KeyError("key not found")`. -/
def SystemIDASettings.get_value (pn key : String) (w : World) : Except PyErr Bytes :=
  match qsysValue w pn key with
  | none => Except.error PyErr.keyError
  | some v => Except.ok v

/-- Embeds `SystemIDASettings.set_value` (src 190-191): unchecked
`QSettings.setValue` under the plugin-name group. -/
def SystemIDASettings.set_value (pn key : String) (v : Option Bytes) (w : World) : World :=
  { w with sysQ := aupsert w.sysQ (pn, key) v }

/-- Embeds `SystemIDASettings.del_value` (src 193-194): `QSettings.remove`;
removing an absent key is a no-op. -/
def SystemIDASettings.del_value (pn key : String) (w : World) : World :=
  { w with sysQ := aremove w.sysQ (pn, key) }

/-- Embeds `SystemIDASettings.get_keys` (src 196-198): yield `allKeys` of
the group. -/
def SystemIDASettings.get_keys (pn : String) (w : World) : List String :=
  qallKeys w.sysQ pn

/-- Embeds `UserIDASettings.get_value` (src 206-211): reads through the
UserScope handle, which falls back to SystemScope storage (see
`quserValue`); `None` raises `KeyError`. -/
def UserIDASettings.get_value (pn key : String) (w : World) : Except PyErr Bytes :=
  match quserValue w pn key with
  | none => Except.error PyErr.keyError
  | some v => Except.ok v

/-- Embeds `UserIDASettings.set_value` (src 213-214): writes the
user-scope storage only. -/
def UserIDASettings.set_value (pn key : String) (v : Option Bytes) (w : World) : World :=
  { w with userQ := aupsert w.userQ (pn, key) v }

/-- Embeds `UserIDASettings.del_value` (src 216-217). -/
def UserIDASettings.del_value (pn key : String) (w : World) : World :=
  { w with userQ := aremove w.userQ (pn, key) }

/-- Embeds `UserIDASettings.get_keys` (src 219-221): Qt's `allKeys` on a
UserScope handle merges in keys visible from the SystemScope fallback. -/
def UserIDASettings.get_keys (pn : String) (w : World) : List String :=
  let us := qallKeys w.userQ pn
  us ++ (qallKeys w.sysQ pn).filter (fun k => !us.contains k)

/-- Embeds `DirectoryIDASettings.get_value` (src 238-242). -/
def DirectoryIDASettings.get_value (pn key : String) (w : World) : Except PyErr Bytes :=
  match qdirValue w pn key with
  | none => Except.error PyErr.keyError
  | some v => Except.ok v

/-- Embeds `DirectoryIDASettings.set_value` (src 244-245). -/
def DirectoryIDASettings.set_value (pn key : String) (v : Option Bytes) (w : World) : World :=
  { w with dirQ := aupsert w.dirQ (pn, key) v }

/-- Embeds `DirectoryIDASettings.del_value` (src 247-248). -/
def DirectoryIDASettings.del_value (pn key : String) (w : World) : World :=
  { w with dirQ := aremove w.dirQ (pn, key) }

/-- Embeds `DirectoryIDASettings.get_keys` (src 250-252). -/
def DirectoryIDASettings.get_keys (pn : String) (w : World) : List String :=
  qallKeys w.dirQ pn

/-- Src 168: module-wide organization constant. -/
def ORG_CONSTANT : String := "IDAPython"

/-- Src 169: module-wide application constant. -/
def APP_CONSTANT : String := "IDA-Settings"

/-- Src 267: the registry key inside the meta netnode. -/
def PLUGIN_NAMES_KEY : String := "plugin_names"

/-- Node name built by `IDBIDASettings._netnode` (src 305-308). -/
def settingsNodeName (pn : String) : String :=
  "$ " ++ ORG_CONSTANT ++ "." ++ APP_CONSTANT ++ "." ++ pn

/-- Node name built by `get_meta_netnode` (src 260-262). -/
def metaNodeName : String :=
  "$ " ++ ORG_CONSTANT ++ "." ++ APP_CONSTANT

/-- `idaapi.netnode(name, 0, True)`: create the node when absent
(`do_create=True`); an existing node is left untouched. -/
def ensureNode (name : String) (w : World) : World :=
  match alookup w.nodes name with
  | some _ => w
  | none => { w with nodes := w.nodes ++ [(name, [])] }

/-- The hash entries of a node (empty when the node does not exist). -/
def nodeEntries (w : World) (name : String) : HashEntries :=
  (alookup w.nodes name).getD []

/-- `netnode.hashval`: `None` for an absent key or a stored null. -/
def hashval (w : World) (name key : String) : Option Bytes :=
  match alookup (nodeEntries w name) key with
  | none => none
  | some ov => ov

/-- `netnode.hashset`: upsert an entry (the payload may be null). -/
def hashset (name key : String) (v : Option Bytes) (w : World) : World :=
  { w with nodes := aupsert w.nodes name (aupsert (nodeEntries w name) key v) }

/-- `netnode.hashdel`: drop the entry; absent keys are a no-op. -/
def hashdel (name key : String) (w : World) : World :=
  { w with nodes := aupsert w.nodes name (aremove (nodeEntries w name) key) }

/-- Embeds `get_netnode_plugin_names` (src 270-283): open (creating) the
meta netnode and read `plugin_names`; a `None` registry yields `[]`;
otherwise the code executes `json.loads(v)`, and since the module never
imports `json`, that statement raises `NameError` in Python. (For a
string key the `TypeError` guard around `hashval` does not fire.) -/
def get_netnode_plugin_names (w : World) : Except PyErr (List String) × World :=
  let w1 := ensureNode metaNodeName w
  match hashval w1 metaNodeName PLUGIN_NAMES_KEY with
  | none => (Except.ok [], w1)
  | some _ => (Except.error PyErr.nameError, w1)

/-- Embeds `add_netnode_plugin_name` (src 286-299). Its first statement
is `current_names = set(get_current_plugin_names())`, and the module
defines no `get_current_plugin_names` (the registry reader is named
`get_netnode_plugin_names`), so in Python the call raises `NameError`
before the registry is read, unioned, or written. -/
def add_netnode_plugin_name (_pn : String) (w : World) : Except PyErr Unit × World :=
  (Except.error PyErr.nameError, w)

/-- Embeds the `IDBIDASettings._netnode` property (src 303-312): create
the per-plugin settings netnode, then call `add_netnode_plugin_name`,
which raises `NameError` (see above); the exception escapes the
property, so the node name is never returned. -/
def IDBIDASettings.netnode (pn : String) (w : World) : Except PyErr String × World :=
  let w1 := ensureNode (settingsNodeName pn) w
  match add_netnode_plugin_name pn w1 with
  | (Except.error e, w2) => (Except.error e, w2)
  | (Except.ok _, w2) => (Except.ok (settingsNodeName pn), w2)

/-- Embeds `IDBIDASettings.get_value` (src 314-325): key-type guard
(always passes for a string), then `_netnode.hashval`; a `TypeError`
from `hashval` or a `None` result raises `KeyError`. -/
def IDBIDASettings.get_value (pn key : String) (w : World) : Except PyErr Bytes × World :=
  match IDBIDASettings.netnode pn w with
  | (Except.error e, w1) => (Except.error e, w1)
  | (Except.ok name, w1) =>
    match hashval w1 name key with
    | none => (Except.error PyErr.keyError, w1)
    | some v => (Except.ok v, w1)

/-- Embeds `IDBIDASettings.set_value` (src 327-334): the value-type guard
(`TypeError` unless bytes) runs before `_netnode` is touched; then
`_netnode.hashset(key, value)`. -/
def IDBIDASettings.set_value (pn key : String) (v : Option Bytes) (w : World) :
    Except PyErr Unit × World :=
  match v with
  | none => (Except.error PyErr.typeError, w)
  | some b =>
    match IDBIDASettings.netnode pn w with
    | (Except.error e, w1) => (Except.error e, w1)
    | (Except.ok name, w1) => (Except.ok (), hashset name key (some b) w1)

/-- Embeds `IDBIDASettings.del_value` (src 336-341): `_netnode.hashdel`
then `_netnode.hashset(key, None)`. -/
def IDBIDASettings.del_value (pn key : String) (w : World) : Except PyErr Unit × World :=
  match IDBIDASettings.netnode pn w with
  | (Except.error e, w1) => (Except.error e, w1)
  | (Except.ok name, w1) => (Except.ok (), hashset name key none (hashdel name key w1))

/-- Embeds `IDBIDASettings.get_keys` (src 343-347): the generator walks
`hash1st` / `hashnxt` over the node's entries in insertion order; the
`_netnode` access runs (and its exception surfaces) on first iteration. -/
def IDBIDASettings.get_keys (pn : String) (w : World) : Except PyErr (List String) × World :=
  match IDBIDASettings.netnode pn w with
  | (Except.error e, w1) => (Except.error e, w1)
  | (Except.ok name, w1) => (Except.ok ((nodeEntries w1 name).map Prod.fst), w1)

/-- Character class of src 100: `[A-Za-z0-9 \-\.]`. -/
def allowedChar (c : Char) : Bool :=
  (('A' ≤ c && c ≤ 'Z') || ('a' ≤ c && c ≤ 'z') || ('0' ≤ c && c ≤ '9')
    || c == ' ' || c == '-' || c == '.')

/-- Embeds `validate` (src 100-102):
`re.match("[A-Za-z0-9 \-\.]+$", s) != None`. `re.match` anchors at the
start, and without MULTILINE the `$` matches at the end of the string
or just before one trailing newline; so the regex accepts exactly a
nonempty all-allowed string optionally followed by one final newline
(the newline itself is outside the character class). -/
def validate (s : String) : Bool :=
  let core := match s.toList.reverse with
    | '\n' :: rest => rest.reverse
    | _ => s.toList
  !core.isEmpty && core.all allowedChar

/-- Embeds `IDASettings.__init__` (src 351-355): a namespace failing
`validate` raises `RuntimeError("invalid plugin name")`. -/
def IDASettings.init (pn : String) : Except PyErr Unit :=
  if validate pn then Except.ok () else Except.error PyErr.runtimeError

/-- Embeds `IDASettings.get_value` (src 373-391), the facade resolve:
probe idb, then directory, then user, then system, each probe wrapped
in `except KeyError: pass`; any other exception propagates; when every
probe raises `KeyError` the facade raises `KeyError("key not found")`. -/
def IDASettings.get_value (pn key : String) (w : World) : Except PyErr Bytes × World :=
  match IDBIDASettings.get_value pn key w with
  | (Except.error PyErr.keyError, w1) =>
    match DirectoryIDASettings.get_value pn key w1 with
    | Except.error PyErr.keyError =>
      match UserIDASettings.get_value pn key w1 with
      | Except.error PyErr.keyError => (SystemIDASettings.get_value pn key w1, w1)
      | r => (r, w1)
    | r => (r, w1)
  | r => r

/-- Embeds the `IDASettings.idb_plugin_names` property (src 423-425). -/
def IDASettings.idb_plugin_names (w : World) : Except PyErr (List String) × World :=
  get_netnode_plugin_names w

/-- The four primitive operations of `IDASettingsInterface`, bundled so
the `DictMixin` methods can be stated once over any scope store. -/
structure StoreOps where
  get_value : String → World → Except PyErr Bytes × World
  set_value : String → Option Bytes → World → Except PyErr Unit × World
  del_value : String → World → Except PyErr Unit × World
  get_keys : World → Except PyErr (List String) × World

/-- `SystemIDASettings` as a bundle of operations. -/
def systemStore (pn : String) : StoreOps where
  get_value k w := (SystemIDASettings.get_value pn k w, w)
  set_value k v w := (Except.ok (), SystemIDASettings.set_value pn k v w)
  del_value k w := (Except.ok (), SystemIDASettings.del_value pn k w)
  get_keys w := (Except.ok (SystemIDASettings.get_keys pn w), w)

/-- `UserIDASettings` as a bundle of operations. -/
def userStore (pn : String) : StoreOps where
  get_value k w := (UserIDASettings.get_value pn k w, w)
  set_value k v w := (Except.ok (), UserIDASettings.set_value pn k v w)
  del_value k w := (Except.ok (), UserIDASettings.del_value pn k w)
  get_keys w := (Except.ok (UserIDASettings.get_keys pn w), w)

/-- `DirectoryIDASettings` as a bundle of operations. -/
def directoryStore (pn : String) : StoreOps where
  get_value k w := (DirectoryIDASettings.get_value pn k w, w)
  set_value k v w := (Except.ok (), DirectoryIDASettings.set_value pn k v w)
  del_value k w := (Except.ok (), DirectoryIDASettings.del_value pn k w)
  get_keys w := (Except.ok (DirectoryIDASettings.get_keys pn w), w)

/-- `IDBIDASettings` as a bundle of operations. -/
def idbStore (pn : String) : StoreOps where
  get_value := IDBIDASettings.get_value pn
  set_value := IDBIDASettings.set_value pn
  del_value := IDBIDASettings.del_value pn
  get_keys := IDBIDASettings.get_keys pn

/-- Embeds `DictMixin.get` (src 133-137): `self[key]` (the string-key
guard passes), catching `KeyError` only; but the except branch is
`return Default`, and the module defines no name `Default` (the
parameter is the lowercase `default`), so the branch raises `NameError`
instead of returning the caller's default. Other exceptions propagate. -/
def DictMixin.get (s : StoreOps) (key : String) (_default : Option Bytes) (w : World) :
    Except PyErr Bytes × World :=
  match s.get_value key w with
  | (Except.error PyErr.keyError, w1) => (Except.error PyErr.nameError, w1)
  | r => r

/-- Embeds `DictMixin.__contains__` (src 139-145): `self[key] is not
None` under a `KeyError` handler returning `False`. Every scope store's
`get_value` raises rather than return `None`, so a successful get means
`True`; other exceptions propagate out of the handler. -/
def DictMixin.contains (s : StoreOps) (key : String) (w : World) : Except PyErr Bool × World :=
  match s.get_value key w with
  | (Except.ok _, w1) => (Except.ok true, w1)
  | (Except.error PyErr.keyError, w1) => (Except.ok false, w1)
  | (Except.error e, w1) => (Except.error e, w1)

/-- Src 440: test constant. -/
def PLUGIN_1 : String := "plugin1"

/-- Src 441: test constant. -/
def PLUGIN_2 : String := "plugin2"

/-- Src 442: test constant. -/
def KEY_1 : String := "key_1"

/-- Src 443: test constant. -/
def KEY_2 : String := "key_2"

/-- Src 444: `bytes("hello")`. -/
def VALUE_1 : Bytes := [104, 101, 108, 108, 111]

/-- Src 445: `bytes("goodbye")`. -/
def VALUE_2 : Bytes := [103, 111, 111, 100, 98, 121, 101]

/-- A fresh environment: empty registries, ini file, and IDB. -/
def emptyWorld : World := ⟨[], [], [], []⟩

/-- A world where `KEY_1` is set only in the system scope. -/
def sysOnlyWorld : World := { emptyWorld with sysQ := [((PLUGIN_1, KEY_1), some VALUE_1)] }

/-- A world where `KEY_1` is set only in the user scope. -/
def userOnlyWorld : World := { emptyWorld with userQ := [((PLUGIN_1, KEY_1), some VALUE_1)] }

theorem alookup_aupsert {α β : Type} [DecidableEq α] (l : List (α × β)) (a : α) (v : β) :
    alookup (aupsert l a v) a = some v := by
  induction l with
  | nil => simp [aupsert, alookup]
  | cons p rest ih =>
    by_cases h : p.1 = a
    · simp [aupsert, alookup, h]
    · simp [aupsert, alookup, h, ih]

/-- Claim C1: the facade `IDASettings.get_value` is specified to probe
Document, Directory, User, System and return the first hit. In the code
the first probe, `IDBIDASettings.get_value`, raises `NameError` (its
`_netnode` property calls the undefined `get_current_plugin_names`),
which the facade's `except KeyError` does not catch: even with the key
present in the User scope, resolve raises `NameError` instead of
returning the user value. -/
theorem facade_resolve_raises_name_error :
    (IDASettings.get_value PLUGIN_1 KEY_1 userOnlyWorld).1 = Except.error PyErr.nameError := rfl

/-- Claim C2: set-then-get round-trip per scope. The QSettings-backed
System scope round-trips exactly (including a silent overwrite), but on
the Document (idb) scope `set_value` itself raises `NameError` via
`_netnode`, so the round-trip asserted by the module's own
`TestIdbSettings.test_set` is impossible. -/
theorem idb_roundtrip_broken :
    (IDBIDASettings.set_value PLUGIN_1 KEY_1 (some VALUE_1) emptyWorld).1
      = Except.error PyErr.nameError
  ∧ SystemIDASettings.get_value PLUGIN_1 KEY_1
      (SystemIDASettings.set_value PLUGIN_1 KEY_1 (some VALUE_1) emptyWorld) = Except.ok VALUE_1
  ∧ SystemIDASettings.get_value PLUGIN_1 KEY_1
      (SystemIDASettings.set_value PLUGIN_1 KEY_1 (some VALUE_2)
        (SystemIDASettings.set_value PLUGIN_1 KEY_1 (some VALUE_1) emptyWorld))
      = Except.ok VALUE_2 :=
  ⟨rfl, rfl, rfl⟩

/-- Claim C3, counterexample: with `KEY_1` stored only in the System
scope (the user-scope storage has no entry for it), the user store's
`get_value` succeeds with the system value instead of failing with
`KeyError` — `UserIDASettings.get_value` does fall back to the System
scope, exactly as the module's `test_system_fallback` asserts. -/
theorem user_scope_fallback_cex :
    alookup userOnlyWorld.sysQ (PLUGIN_1, KEY_1) = none
  ∧ alookup sysOnlyWorld.userQ (PLUGIN_1, KEY_1) = none
  ∧ UserIDASettings.get_value PLUGIN_1 KEY_1 sysOnlyWorld = Except.ok VALUE_1 :=
  ⟨rfl, rfl, rfl⟩

/-- Claim C3 (amended): System- and Directory-scope `get_value` fail
with `KeyError` on a key absent in that scope and never return a
default; User-scope `get_value` falls back to the System scope — when
the key has no user-scope entry it behaves exactly like the
System-scope get (so it fails only when the key is absent in both);
Document-scope `get_value` always raises `NameError` (broken
registration path), never silently returning a default either. -/
theorem single_scope_get_no_default (pn k : String) (w : World) :
    (qsysValue w pn k = none → SystemIDASettings.get_value pn k w = Except.error PyErr.keyError)
  ∧ (qdirValue w pn k = none →
      DirectoryIDASettings.get_value pn k w = Except.error PyErr.keyError)
  ∧ (alookup w.userQ (pn, k) = none →
      UserIDASettings.get_value pn k w = SystemIDASettings.get_value pn k w)
  ∧ (IDBIDASettings.get_value pn k w).1 = Except.error PyErr.nameError := by
  refine ⟨fun h => ?_, fun h => ?_, fun h => ?_, rfl⟩
  · simp [SystemIDASettings.get_value, h]
  · simp [DirectoryIDASettings.get_value, h]
  · simp [UserIDASettings.get_value, SystemIDASettings.get_value, quserValue, h]

/-- Witness for `single_scope_get_no_default` at concrete inputs. -/
theorem single_scope_get_no_default_witness :
    SystemIDASettings.get_value PLUGIN_2 KEY_1 emptyWorld = Except.error PyErr.keyError
  ∧ UserIDASettings.get_value PLUGIN_1 KEY_1 sysOnlyWorld
      = SystemIDASettings.get_value PLUGIN_1 KEY_1 sysOnlyWorld :=
  ⟨(single_scope_get_no_default PLUGIN_2 KEY_1 emptyWorld).1 rfl,
   (single_scope_get_no_default PLUGIN_1 KEY_1 sysOnlyWorld).2.2.1 rfl⟩

/-- Claim C4: `validate` accepts "My-Plugin 1.0" and rejects "" and
"my/plugin" as specified, but because `re.match`'s `$` also matches
just before one trailing newline, the control-character string
"My-Plugin\n" is accepted and `IDASettings` construction succeeds on
it, contradicting the all-characters-allowed policy (and the comment at
src line 99). -/
theorem validate_accepts_trailing_newline :
    validate "My-Plugin 1.0" = true
  ∧ validate "" = false
  ∧ validate "my/plugin" = false
  ∧ IDASettings.init "my/plugin" = Except.error PyErr.runtimeError
  ∧ validate "My-Plugin\n" = true
  ∧ IDASettings.init "My-Plugin\n" = Except.ok () :=
  ⟨rfl, rfl, rfl, rfl, rfl, rfl⟩

/-- Claim C5: deleting an absent key is a no-op on the System scope and
the key stays absent; but on the Document (idb) scope `del_value` on an
absent key raises `NameError` (via `_netnode` →
`add_netnode_plugin_name` → undefined `get_current_plugin_names`),
contradicting the no-op contract the module's own clearing helpers and
`test_keys` rely on. -/
theorem idb_del_absent_raises :
    (IDBIDASettings.del_value PLUGIN_1 KEY_1 emptyWorld).1 = Except.error PyErr.nameError
  ∧ SystemIDASettings.del_value PLUGIN_1 KEY_1 emptyWorld = emptyWorld
  ∧ SystemIDASettings.get_value PLUGIN_1 KEY_1
      (SystemIDASettings.del_value PLUGIN_1 KEY_1 emptyWorld) = Except.error PyErr.keyError :=
  ⟨rfl, rfl, rfl⟩

/-- Claim C6: a Document-scope access is specified to register the
namespace into the registry via read-union-write. In the code
`add_netnode_plugin_name` raises `NameError` on its first statement
(undefined `get_current_plugin_names`; `json` is also never imported),
so an idb `set_value` fails and the registry read afterwards still
yields the empty list — `idb_plugin_names` can never list a namespace. -/
theorem idb_registry_never_written :
    (IDBIDASettings.set_value PLUGIN_1 KEY_1 (some VALUE_1) emptyWorld).1
      = Except.error PyErr.nameError
  ∧ (IDASettings.idb_plugin_names
      (IDBIDASettings.set_value PLUGIN_1 KEY_1 (some VALUE_1) emptyWorld).2).1 = Except.ok []
  ∧ (add_netnode_plugin_name PLUGIN_1 emptyWorld).1 = Except.error PyErr.nameError :=
  ⟨rfl, rfl, rfl⟩

/-- Claim C7: on the System scope `get_keys` is empty for a fresh
(namespace, scope) and yields exactly the distinct keys that were set;
but on the Document (idb) scope iterating `get_keys` raises `NameError`
(via `_netnode`) even on a fresh IDB, instead of yielding the empty
sequence / insertion-ordered keys. -/
theorem idb_get_keys_raises :
    (IDBIDASettings.get_keys PLUGIN_1 emptyWorld).1 = Except.error PyErr.nameError
  ∧ SystemIDASettings.get_keys PLUGIN_1 emptyWorld = []
  ∧ SystemIDASettings.get_keys PLUGIN_1
      (SystemIDASettings.set_value PLUGIN_1 KEY_2 (some VALUE_2)
        (SystemIDASettings.set_value PLUGIN_1 KEY_1 (some VALUE_1) emptyWorld))
      = [KEY_1, KEY_2] :=
  ⟨rfl, rfl, rfl⟩

/-- Claim C8, counterexample: with a null explicitly stored under
`KEY_1` in the System scope, membership is `False` as claimed, but
`get_value` raises `KeyError` — `get` treats the stored null as absent,
contrary to the claim's "but not for `get`". -/
theorem stored_null_membership_cex :
    (DictMixin.contains (systemStore PLUGIN_1) KEY_1
      (SystemIDASettings.set_value PLUGIN_1 KEY_1 none emptyWorld)).1 = Except.ok false
  ∧ SystemIDASettings.get_value PLUGIN_1 KEY_1
      (SystemIDASettings.set_value PLUGIN_1 KEY_1 none emptyWorld)
      = Except.error PyErr.keyError :=
  ⟨rfl, rfl⟩

/-- Claim C8 (amended): for a store holding an explicitly stored null
under `k`, the membership test `k in store` is `False`, and `get` on
`k` also treats the stored null as absent: `get_value` fails with
`KeyError` (every scope's `get_value` raises when the backend returns
null). -/
theorem stored_null_treated_absent (pn k : String) (w : World) :
    (DictMixin.contains (systemStore pn) k
      (SystemIDASettings.set_value pn k none w)).1 = Except.ok false
  ∧ SystemIDASettings.get_value pn k (SystemIDASettings.set_value pn k none w)
      = Except.error PyErr.keyError := by
  have hv : qsysValue (SystemIDASettings.set_value pn k none w) pn k = none := by
    simp [qsysValue, SystemIDASettings.set_value, alookup_aupsert]
  constructor
  · simp [DictMixin.contains, systemStore, SystemIDASettings.get_value, hv]
  · simp [SystemIDASettings.get_value, hv]

/-- Claim C9: a `set_value` on any one scope leaves the persisted
key-to-value state of the other three scopes unchanged — writes target
exactly one explicit scope and never cascade. (An idb `set_value`
raises before writing any key data; it at most creates its own empty
netnode, touching none of the other scopes' storage.) -/
theorem writes_target_one_scope (pn k : String) (v : Option Bytes) (w : World) :
    ((SystemIDASettings.set_value pn k v w).userQ = w.userQ
      ∧ (SystemIDASettings.set_value pn k v w).dirQ = w.dirQ
      ∧ (SystemIDASettings.set_value pn k v w).nodes = w.nodes)
  ∧ ((UserIDASettings.set_value pn k v w).sysQ = w.sysQ
      ∧ (UserIDASettings.set_value pn k v w).dirQ = w.dirQ
      ∧ (UserIDASettings.set_value pn k v w).nodes = w.nodes)
  ∧ ((DirectoryIDASettings.set_value pn k v w).sysQ = w.sysQ
      ∧ (DirectoryIDASettings.set_value pn k v w).userQ = w.userQ
      ∧ (DirectoryIDASettings.set_value pn k v w).nodes = w.nodes)
  ∧ ((IDBIDASettings.set_value pn k v w).2.sysQ = w.sysQ
      ∧ (IDBIDASettings.set_value pn k v w).2.userQ = w.userQ
      ∧ (IDBIDASettings.set_value pn k v w).2.dirQ = w.dirQ) := by
  refine ⟨⟨rfl, rfl, rfl⟩, ⟨rfl, rfl, rfl⟩, ⟨rfl, rfl, rfl⟩, ?_⟩
  cases v with
  | none => exact ⟨rfl, rfl, rfl⟩
  | some b =>
    have h2 : (IDBIDASettings.set_value pn k (some b) w).2
        = ensureNode (settingsNodeName pn) w := rfl
    rw [h2]
    cases he : alookup w.nodes (settingsNodeName pn) <;> simp [ensureNode, he]

/-- Claim C10: `DictMixin.get(key, default)` on an absent key is meant
to return the caller-supplied default, but the `except KeyError` branch
executes `return Default`, an undefined name, so the call raises
`NameError` instead of returning the default. -/
theorem dict_get_default_raises :
    (DictMixin.get (systemStore PLUGIN_1) KEY_1 (some VALUE_2) emptyWorld).1
      = Except.error PyErr.nameError := rfl
